import Mathlib

/-!
Shallow embedding of the core of `odp.py` (Orbital Defence Platform): the
push-processing loop, command execution, authorization filtering and the
event-driven time cursor. External collaborators (the Pushbullet provider,
subprocess, docker) are modelled as an explicit environment; their calls are
recorded in a trace. Exceptions are modelled with `Except` / an error option.
-/

namespace ODP

/-- Python exceptions raised on the modelled code paths. `pushbulletError`
stands for any error raised by the provider library during a reply. -/
inductive PyError where
  | keyError
  | valueError
  | attributeError
  | pushbulletError
  deriving DecidableEq, Repr

/-- A Pushbullet device: fields `nickname` and `device_iden`. -/
structure Device where
  nickname : String
  device_iden : String
  deriving DecidableEq, Repr

/-- A push message (a dict in the source): `body`, the optional keys
`source_device_iden` and `target_device_iden` (read with `.get(..., None)`),
and the `modified` timestamp. -/
structure Push where
  body : String
  source_device_iden : Option String
  target_device_iden : Option String
  modified : Nat
  deriving DecidableEq, Repr

/-- The parts of the loaded configuration the core uses:
`config["commands"]` (a dict, modelled as an association list with unique
keys) and `config["authorised_src_idens"]` (a list of identifiers). -/
structure Config where
  commands : List (String × String)
  authorised_src_idens : List String
  deriving DecidableEq, Repr

/-- Events recorded while processing: the invocation of `executeCommand`
for a body, a `subprocess.call` with a concrete argument vector, a docker
container start/stop, and a delivered reply (its text, the name key used
for the `get_device` lookup, and the device it was sent to). -/
inductive TraceEvent where
  | attempt (body : String)
  | spawn (argv : List String)
  | dockerStart (container : String)
  | dockerStop (container : String)
  | reply (msg : String) (lookupKey : Option String) (dev : Device)
  deriving DecidableEq, Repr

/-- The external collaborators: `subprocess.call` (exit status for an
argument vector), `self.pb.devices`, `self.pb_device.device_iden`,
`self.pb.get_device(name)` (the name may be `None`), and
`self.pb.push_note(msg, time.strftime, device)` (title text and target
device; the timestamp argument is not modelled). -/
structure Env where
  exitCode : List String → Int
  devices : List Device
  device_iden : String
  get_device : Option String → Except PyError Device
  push_note : String → Device → Except PyError Unit

/-- Python `str.split()` with no arguments: split on runs of whitespace,
dropping empty pieces. -/
def pySplit (s : String) : List String :=
  (s.split Char.isWhitespace).filter (fun t => t != "")

/-- Python truthiness of the value `executeCommand` returns: `None`
(the docker branches) is falsy, an exit status is truthy iff nonzero. -/
def isTruthy : Option Int → Bool
  | none => false
  | some n => n != 0

/-- The source calls `exec_cmd.starts_with(...)`: Python `str` has no
attribute `starts_with` (the real method is `startswith`), so the attribute
access raises `AttributeError` for every string, before the dispatch. -/
def starts_with (_s _pre : String) : Except PyError Bool :=
  Except.error PyError.attributeError

/-- Embedding of `ODP.executeCommand`: look the command up in
`config["commands"]` (a miss re-raises `ValueError`), then dispatch on the
action spec. On success it returns the side effects produced together with
the value returned to the caller (`None` for the docker branches, the exit
status of `subprocess.call(exec_cmd.split(), shell=False)` otherwise). -/
def executeCommand (env : Env) (config : Config) (command : String) :
    Except PyError (List TraceEvent × Option Int) :=
  match List.lookup command config.commands with
  | none => Except.error PyError.valueError
  | some exec_cmd =>
    match starts_with exec_cmd "docker-start:" with
    | Except.error e => Except.error e
    | Except.ok b1 =>
      if b1 then
        Except.ok ([TraceEvent.dockerStart (exec_cmd.drop 13)], none)
      else
        match starts_with exec_cmd "docker-stop:" with
        | Except.error e => Except.error e
        | Except.ok b2 =>
          if b2 then
            Except.ok ([TraceEvent.dockerStop (exec_cmd.drop 12)], none)
          else
            Except.ok ([TraceEvent.spawn (pySplit exec_cmd)],
                       some (env.exitCode (pySplit exec_cmd)))

/-- The reply text built on the non-exception path of `ODP.processPushes`:
`"Command: \x27%s\x27. Result: %s"`. -/
def success_msg (body result : String) : String :=
  "Command: \x27" ++ body ++ "\x27. Result: " ++ result

/-- The reply text built in the `except` branch of `ODP.processPushes`:
`"Command \x27%s\x27 exploded"`. -/
def exploded_msg (body : String) : String :=
  "Command \x27" ++ body ++ "\x27 exploded"

/-- Embedding of `ODP.deviceNameFromIden`: scan `self.pb.devices` and
return the first matching nickname; falling off the loop returns `None`. -/
def deviceNameFromIden (devices : List Device) (iden : String) : Option String :=
  match devices with
  | [] => none
  | d :: rest =>
    if iden = d.device_iden then some d.nickname
    else deviceNameFromIden rest iden

/-- The `try`/`except` around `executeCommand` in `ODP.processPushes`:
on a normal return, the result value maps through `and "Failed" or
"Success"`; any exception is swallowed and the "exploded" text used.
Returns the execution side effects together with the reply text. -/
def attemptCommand (env : Env) (config : Config) (body : String) :
    List TraceEvent × String :=
  match executeCommand env config body with
  | Except.ok (effects, value) =>
    (effects, success_msg body (if isTruthy value then "Failed" else "Success"))
  | Except.error _ => ([], exploded_msg body)

/-- One iteration of the loop in `ODP.processPushes`: attempt the command,
then (outside any `try`) read `push["source_device_iden"]`, resolve the
source device by nickname, and send the reply. Returns the events this
iteration produced and, when an uncaught exception escapes the iteration,
the exception. -/
def processPush (env : Env) (config : Config) (push : Push) :
    List TraceEvent × Option PyError :=
  let a := attemptCommand env config push.body
  match push.source_device_iden with
  | none => (TraceEvent.attempt push.body :: a.1, some PyError.keyError)
  | some src =>
    match env.get_device (deviceNameFromIden env.devices src) with
    | Except.error e => (TraceEvent.attempt push.body :: a.1, some e)
    | Except.ok src_device =>
      match env.push_note a.2 src_device with
      | Except.error e => (TraceEvent.attempt push.body :: a.1, some e)
      | Except.ok _ =>
        (TraceEvent.attempt push.body ::
           a.1 ++ [TraceEvent.reply a.2 (deviceNameFromIden env.devices src)
                     src_device],
         none)

/-- Embedding of `ODP.processPushes`: the loop over the filtered batch. An
exception raised outside the `try` block (source key access, device
resolution, reply delivery) propagates and aborts the loop, so the
remaining pushes are not visited. -/
def processPushes (env : Env) (config : Config) :
    List Push → List TraceEvent × Option PyError
  | [] => ([], none)
  | push :: rest =>
    match processPush env config push with
    | (events, some e) => (events, some e)
    | (events, none) =>
      match processPushes env config rest with
      | (more, err) => (events ++ more, err)

/-- The provider call `self.pb.get_pushes(modified_after=cursor)`: the
provider returns exactly the pushes modified strictly after the cursor. -/
def get_pushes (allPushes : List Push) (cursor : Nat) : List Push :=
  allPushes.filter (fun p => decide (cursor < p.modified))

/-- The cursor update loop in `ODP.updatePushes`:
`time_cursor = max(time_cursor, push.get("modified"))` over the batch. -/
def advanceCursor (cursor : Nat) (pushes : List Push) : Nat :=
  pushes.foldl (fun c p => max c p.modified) cursor

/-- The list comprehension in `ODP.updatePushes` selecting the pushes for
ODP: target equals our device iden and source is an authorised iden. -/
def our_pushes (device_iden : String) (authorised : List String)
    (pushes : List Push) : List Push :=
  pushes.filter (fun x =>
    x.target_device_iden == some device_iden &&
    (match x.source_device_iden with
     | some s => authorised.contains s
     | none => false))

/-- The observable outcome of one `ODP.updatePushes` cycle. -/
structure CycleResult where
  time_cursor : Nat
  fetched : List Push
  ourPushes : List Push
  trace : List TraceEvent
  err : Option PyError

/-- Embedding of `ODP.updatePushes` for one cycle: fetch the pushes
modified after the cursor, advance the cursor over the whole fetched
batch, filter for ODP, process. -/
def updatePushes (env : Env) (config : Config) (allPushes : List Push)
    (cursor : Nat) : CycleResult :=
  let fetched := get_pushes allPushes cursor
  let cursor2 := advanceCursor cursor fetched
  let ours := our_pushes env.device_iden config.authorised_src_idens fetched
  match processPushes env config ours with
  | (trace, err) => ⟨cursor2, fetched, ours, trace, err⟩

/-- What `ODP.newEvent` does with a listener event: nothing, raise
`KeyError` (a `"tickle"` event with no `"subtype"` key), or fetch. -/
inductive FetchAction where
  | noFetch
  | keyErrorRaised
  | fetch
  deriving DecidableEq, Repr

/-- Embedding of `ODP.newEvent`: `event["type"] == "tickle" and
event["subtype"] == "push"` triggers `updatePushes`; `and` short-circuits,
so `event["subtype"]` is only read when the type is `"tickle"`. -/
def newEvent (etype : String) (subtype : Option String) : FetchAction :=
  if etype = "tickle" then
    match subtype with
    | none => FetchAction.keyErrorRaised
    | some s => if s = "push" then FetchAction.fetch else FetchAction.noFetch
  else FetchAction.noFetch

/-- A run of successive event-driven cycles: at each tickle the provider
holds some list of pushes; each cycle fetches after the current cursor and
advances it. Returns the final cursor and each cycle's outcome. -/
def runCycles (env : Env) (config : Config) :
    List (List Push) → Nat → Nat × List CycleResult
  | [], cursor => (cursor, [])
  | allPushes :: rest, cursor =>
    let r := updatePushes env config allPushes cursor
    match runCycles env config rest r.time_cursor with
    | (final, results) => (final, r :: results)

/-- Counts the `attempt` events of a trace. -/
def countAttempts (tr : List TraceEvent) : Nat :=
  (tr.filter (fun e => match e with
    | TraceEvent.attempt _ => true
    | _ => false)).length

/-- Counts the `reply` events of a trace. -/
def countReplies (tr : List TraceEvent) : Nat :=
  (tr.filter (fun e => match e with
    | TraceEvent.reply _ _ _ => true
    | _ => false)).length

/-- The name key a reply event used for its device lookup (none for other
events). -/
def replyKeyOf : TraceEvent → Option (Option String)
  | TraceEvent.reply _ k _ => some k
  | _ => none

/-- All reply deliveries in the environment succeed: every `get_device`
lookup returns a device and every `push_note` goes through. -/
def deliveriesOk (env : Env) : Prop :=
  (∀ name, ∃ d, env.get_device name = Except.ok d) ∧
  (∀ msg d, env.push_note msg d = Except.ok ())

/-- Counts the `spawn` events of a trace. -/
def countSpawns (tr : List TraceEvent) : Nat :=
  (tr.filter (fun e => match e with
    | TraceEvent.spawn _ => true
    | _ => false)).length

/-- Counts the `dockerStart` events of a trace. -/
def countDockerStarts (tr : List TraceEvent) : Nat :=
  (tr.filter (fun e => match e with
    | TraceEvent.dockerStart _ => true
    | _ => false)).length

/-- The authorised sender's device ("Phone", iden "abc"). -/
def devPhone : Device := ⟨"Phone", "abc"⟩

/-- An environment where every external call succeeds: exit status 0,
one known device, reply delivery always goes through. -/
def envA : Env :=
  ⟨fun _ => 0, [devPhone], "odpdev",
   fun _ => Except.ok devPhone, fun _ _ => Except.ok ()⟩

/-- Scenario A configuration: `{"commands": {"reboot": "shutdown -r now"}}`
with authorised sender `"abc"`. -/
def configA : Config := ⟨[("reboot", "shutdown -r now")], ["abc"]⟩

/-- Scenario A push: body `"reboot"` from `"abc"` to the ODP device. -/
def pushA : Push := ⟨"reboot", some "abc", some "odpdev", 100⟩

/-- Scenario C configuration: a command whose action spec is
`"docker-start:web1"`. -/
def configC : Config := ⟨[("web", "docker-start:web1")], ["abc"]⟩

/-- Scenario C push: body `"web"` from `"abc"` to the ODP device. -/
def pushC : Push := ⟨"web", some "abc", some "odpdev", 101⟩

/-- Environment in which `push_note` (reply delivery) always fails. -/
def envNoteFail : Env :=
  ⟨fun _ => 0, [devPhone], "odpdev",
   fun _ => Except.ok devPhone, fun _ _ => Except.error PyError.pushbulletError⟩

/-- A two-command configuration for the batch counterexamples. -/
def configB : Config := ⟨[("status", "uptime -p")], ["abc"]⟩

/-- First push of the reply-failure batch. -/
def pushB1 : Push := ⟨"status", some "abc", some "odpdev", 110⟩

/-- Second push of the reply-failure batch. -/
def pushB2 : Push := ⟨"uptime", some "abc", some "odpdev", 111⟩

/-- Environment in which `get_device` (device resolution for the reply)
always fails. -/
def envGetFail : Env :=
  ⟨fun _ => 0, [devPhone], "odpdev",
   fun _ => Except.error PyError.pushbulletError, fun _ _ => Except.ok ()⟩

/-- First push of the device-resolution-failure batch. -/
def pushG1 : Push := ⟨"reboot", some "abc", some "odpdev", 120⟩

/-- Second push of the device-resolution-failure batch. -/
def pushG2 : Push := ⟨"halt", some "abc", some "odpdev", 121⟩

/-- A push whose body names no configured command. -/
def pushMiss : Push := ⟨"nonexistent", some "abc", some "odpdev", 130⟩

/-- Scenario D push modified at 100. -/
def pM100 : Push := ⟨"a", none, none, 100⟩

/-- Scenario D push modified at 105. -/
def pM105 : Push := ⟨"b", none, none, 105⟩

/-! ## Helper lemmas -/

/-- Because of the `starts_with` attribute error, `executeCommand` raises
on every input: `ValueError` on a registry miss, `AttributeError` as soon
as a looked-up action spec is inspected. -/
theorem executeCommand_errors (env : Env) (config : Config) (c : String) :
    executeCommand env config c = Except.error PyError.valueError ∨
    executeCommand env config c = Except.error PyError.attributeError := by
  unfold executeCommand
  cases List.lookup c config.commands with
  | none => exact Or.inl rfl
  | some cmd => exact Or.inr rfl

/-- Every attempt therefore lands in the `except` branch: no side effects
and the "exploded" reply text. -/
theorem attemptCommand_exploded (env : Env) (config : Config) (b : String) :
    attemptCommand env config b = ([], exploded_msg b) := by
  rcases executeCommand_errors env config b with h | h <;>
    simp [attemptCommand, h]

/-- The two possible outcomes of one loop iteration: an uncaught exception
after only the `attempt` event, or a delivered "exploded" reply keyed by
the nickname looked up from the source iden. -/
theorem processPush_shape (env : Env) (config : Config) (p : Push) :
    (∃ e, processPush env config p = ([TraceEvent.attempt p.body], some e)) ∨
    (∃ src dev, p.source_device_iden = some src ∧
      env.get_device (deviceNameFromIden env.devices src) = Except.ok dev ∧
      processPush env config p =
        ([TraceEvent.attempt p.body,
          TraceEvent.reply (exploded_msg p.body)
            (deviceNameFromIden env.devices src) dev], none)) := by
  cases hs : p.source_device_iden with
  | none =>
    exact Or.inl ⟨PyError.keyError,
      by simp [processPush, attemptCommand_exploded, hs]⟩
  | some src =>
    cases hd : env.get_device (deviceNameFromIden env.devices src) with
    | error e =>
      exact Or.inl ⟨e, by simp [processPush, attemptCommand_exploded, hs, hd]⟩
    | ok dev =>
      cases hn : env.push_note (exploded_msg p.body) dev with
      | error e =>
        exact Or.inl ⟨e,
          by simp [processPush, attemptCommand_exploded, hs, hd, hn]⟩
      | ok u =>
        exact Or.inr ⟨src, dev, rfl, hd,
          by simp [processPush, attemptCommand_exploded, hs, hd, hn]⟩

/-- When deliveries succeed and the source key is present, one iteration
completes normally with exactly one attempt and one reply. -/
theorem processPush_ok (env : Env) (config : Config) (p : Push) (src : String)
    (hs : p.source_device_iden = some src) (hd : deliveriesOk env) :
    ∃ dev, env.get_device (deviceNameFromIden env.devices src) = Except.ok dev ∧
      processPush env config p =
        ([TraceEvent.attempt p.body,
          TraceEvent.reply (exploded_msg p.body)
            (deviceNameFromIden env.devices src) dev], none) := by
  obtain ⟨hget, hnote⟩ := hd
  obtain ⟨dev, hdev⟩ := hget (deviceNameFromIden env.devices src)
  exact ⟨dev, hdev,
    by simp [processPush, attemptCommand_exploded, hs, hdev, hnote]⟩

/-- Unfolding `processPushes` when the head iteration completes. -/
theorem processPushes_cons_ok (env : Env) (config : Config) (p : Push)
    (rest : List Push) (evs : List TraceEvent)
    (h : processPush env config p = (evs, none)) :
    processPushes env config (p :: rest) =
      (evs ++ (processPushes env config rest).1,
       (processPushes env config rest).2) := by
  simp [processPushes, h]

/-- Unfolding `processPushes` when the head iteration raises: the batch
is aborted. -/
theorem processPushes_cons_err (env : Env) (config : Config) (p : Push)
    (rest : List Push) (evs : List TraceEvent) (e : PyError)
    (h : processPush env config p = (evs, some e)) :
    processPushes env config (p :: rest) = (evs, some e) := by
  simp [processPushes, h]

/-- Unfolding the cursor fold over a cons cell. -/
theorem advanceCursor_cons (c : Nat) (p : Push) (t : List Push) :
    advanceCursor c (p :: t) = advanceCursor (max c p.modified) t := rfl

/-- The cursor never regresses. -/
theorem le_advanceCursor (c : Nat) (l : List Push) :
    c ≤ advanceCursor c l := by
  induction l generalizing c with
  | nil => exact Nat.le_refl c
  | cons p t ih =>
    rw [advanceCursor_cons]
    exact le_trans (le_max_left c p.modified) (ih (max c p.modified))

/-- The advanced cursor bounds every timestamp in the batch. -/
theorem mem_le_advanceCursor (c : Nat) (l : List Push) (p : Push)
    (h : p ∈ l) : p.modified ≤ advanceCursor c l := by
  induction l generalizing c with
  | nil => cases h
  | cons q t ih =>
    rw [advanceCursor_cons]
    rcases List.mem_cons.mp h with rfl | h2
    · exact le_trans (le_max_right c p.modified) (le_advanceCursor _ t)
    · exact ih _ h2

/-- The advanced cursor is attained: it is the old cursor or one of the
batch timestamps. -/
theorem advanceCursor_attained (c : Nat) (l : List Push) :
    advanceCursor c l = c ∨
      ∃ p, p ∈ l ∧ advanceCursor c l = p.modified := by
  induction l generalizing c with
  | nil => exact Or.inl rfl
  | cons q t ih =>
    rw [advanceCursor_cons]
    rcases ih (max c q.modified) with h | ⟨p, hp, he⟩
    · rcases max_choice c q.modified with hm | hm
      · exact Or.inl (h.trans hm)
      · exact Or.inr ⟨q, List.mem_cons_self q t, h.trans hm⟩
    · exact Or.inr ⟨p, List.mem_cons_of_mem q hp, he⟩

/-- Membership in a fetch result. -/
theorem mem_get_pushes (all : List Push) (c : Nat) (p : Push) :
    p ∈ get_pushes all c ↔ p ∈ all ∧ c < p.modified := by
  simp [get_pushes, List.mem_filter]

/-- Membership in the filtered batch. -/
theorem mem_our_pushes (iden : String) (auth : List String)
    (ps : List Push) (p : Push) :
    p ∈ our_pushes iden auth ps ↔
      p ∈ ps ∧ p.target_device_iden = some iden ∧
        ∃ s, p.source_device_iden = some s ∧ s ∈ auth := by
  simp only [our_pushes, List.mem_filter, Bool.and_eq_true, beq_iff_eq]
  cases hsrc : p.source_device_iden with
  | none => simp [hsrc]
  | some s => simp [hsrc, List.elem_iff, and_assoc]

/-- A device scan that matches no iden returns `None`. -/
theorem deviceNameFromIden_eq_none (devices : List Device) (iden : String)
    (h : ∀ d ∈ devices, d.device_iden ≠ iden) :
    deviceNameFromIden devices iden = none := by
  induction devices with
  | nil => rfl
  | cons d rest ih =>
    simp only [deviceNameFromIden]
    rw [if_neg (fun he => h d (List.mem_cons_self d rest) he.symm)]
    exact ih (fun d2 h2 => h d2 (List.mem_cons_of_mem d h2))

/-- Attempt counting distributes over append. -/
theorem countAttempts_append (a b : List TraceEvent) :
    countAttempts (a ++ b) = countAttempts a + countAttempts b := by
  simp [countAttempts, List.filter_append]

/-- Reply counting distributes over append. -/
theorem countReplies_append (a b : List TraceEvent) :
    countReplies (a ++ b) = countReplies a + countReplies b := by
  simp [countReplies, List.filter_append]

/-- The environment `envA` delivers every reply. -/
theorem envA_deliveriesOk : deliveriesOk envA :=
  ⟨fun _ => ⟨devPhone, rfl⟩, fun _ _ => rfl⟩

/-- Unfolding one event-driven cycle of `runCycles`. -/
theorem runCycles_cons (env : Env) (config : Config) (all : List Push)
    (rest : List (List Push)) (c : Nat) :
    runCycles env config (all :: rest) c =
      ((runCycles env config rest
          (updatePushes env config all c).time_cursor).1,
       updatePushes env config all c ::
         (runCycles env config rest
           (updatePushes env config all c).time_cursor).2) := rfl

/-- The cursor a cycle leaves behind. -/
theorem updatePushes_time_cursor (env : Env) (config : Config)
    (all : List Push) (c : Nat) :
    (updatePushes env config all c).time_cursor =
      advanceCursor c (get_pushes all c) := rfl

/-- The batch a cycle fetched. -/
theorem updatePushes_fetched (env : Env) (config : Config)
    (all : List Push) (c : Nat) :
    (updatePushes env config all c).fetched = get_pushes all c := rfl

/-- The filtered batch a cycle processed. -/
theorem updatePushes_ourPushes (env : Env) (config : Config)
    (all : List Push) (c : Nat) :
    (updatePushes env config all c).ourPushes =
      our_pushes env.device_iden config.authorised_src_idens
        (get_pushes all c) := rfl

/-! ## Claim theorems -/

/-- C5: for every fetched batch, exactly the messages whose target is the
ODP device iden and whose source is an authorised iden are passed on for
processing, and the cycle's trace and error come from processing exactly
that subset, so a message failing either check causes no execution and no
reply. -/
theorem updatePushes_filters_exactly (env : Env) (config : Config)
    (all : List Push) (c : Nat) (p : Push) :
    (p ∈ (updatePushes env config all c).ourPushes ↔
      p ∈ get_pushes all c ∧
        p.target_device_iden = some env.device_iden ∧
        ∃ s, p.source_device_iden = some s ∧
          s ∈ config.authorised_src_idens) ∧
    ((updatePushes env config all c).trace,
     (updatePushes env config all c).err) =
      processPushes env config
        (our_pushes env.device_iden config.authorised_src_idens
          (get_pushes all c)) := by
  refine ⟨?_, rfl⟩
  rw [updatePushes_ourPushes]
  exact mem_our_pushes _ _ _ _

/-- Witness for C5: the authorised push addressed to the ODP device is in
the processed subset. -/
theorem updatePushes_filters_exactly_w :
    pushA ∈ (updatePushes envA configA [pushA] 0).ourPushes :=
  (updatePushes_filters_exactly envA configA [pushA] 0 pushA).1.mpr
    ⟨by decide, rfl, "abc", rfl, by decide⟩

/-- C6: the time cursor never decreases across a cycle, bounds every
fetched timestamp, is attained (the old cursor or a batch timestamp,
i.e. the maximum over both), equals 105 in Scenario D (cursor 90,
timestamps 100 and 105), and the next fetch requests only messages
modified strictly after it. -/
theorem cursor_monotone_max (c : Nat) (fetched all : List Push) :
    c ≤ advanceCursor c fetched ∧
    (∀ p ∈ fetched, p.modified ≤ advanceCursor c fetched) ∧
    (advanceCursor c fetched = c ∨
      ∃ p, p ∈ fetched ∧ advanceCursor c fetched = p.modified) ∧
    advanceCursor 90 [pM100, pM105] = 105 ∧
    (updatePushes envA configA [pM100, pM105] 90).time_cursor = 105 ∧
    (∀ p ∈ get_pushes all 105, 105 < p.modified) := by
  refine ⟨le_advanceCursor c fetched, ?_,
    advanceCursor_attained c fetched, rfl, rfl, ?_⟩
  · intro p hp
    exact mem_le_advanceCursor c fetched p hp
  · intro p hp
    exact ((mem_get_pushes all 105 p).mp hp).2

/-- Witness for C6: the Scenario D batch member with timestamp 105 is
bounded by the advanced cursor. -/
theorem cursor_monotone_max_w :
    pM105.modified ≤ advanceCursor 90 [pM100, pM105] :=
  (cursor_monotone_max 90 [pM100, pM105] []).2.1 pM105 (by decide)

/-- C8: a fetch-and-process cycle is triggered exactly by a listener event
with type `"tickle"` and subtype `"push"` (any other event triggers no
fetch), and a fetch at cursor `c` only returns messages modified strictly
after `c`. -/
theorem newEvent_fetch_iff (t : String) (s : Option String)
    (all : List Push) (c : Nat) :
    (newEvent t s = FetchAction.fetch ↔ t = "tickle" ∧ s = some "push") ∧
    (∀ p ∈ get_pushes all c, c < p.modified) := by
  constructor
  · unfold newEvent
    by_cases ht : t = "tickle"
    · cases s with
      | none => simp [ht]
      | some v =>
        by_cases hv : v = "push"
        · simp [ht, hv]
        · simp [ht, hv]
    · simp [ht]
  · intro p hp
    exact ((mem_get_pushes all c p).mp hp).2

/-- Witness for C8: a push tickle triggers the fetch. -/
theorem newEvent_fetch_iff_w :
    newEvent "tickle" (some "push") = FetchAction.fetch :=
  (newEvent_fetch_iff "tickle" (some "push") [] 0).1.mpr ⟨rfl, rfl⟩

/-- C10: starting from the startup cursor `t0`, the cursor stays at least
`t0` across every cycle, and every message ever fetched (hence every
message ever processed) was modified strictly after `t0`; a message
modified at or before startup is never fetched. -/
theorem startup_cursor_bound (env : Env) (config : Config)
    (histories : List (List Push)) (t0 : Nat) :
    t0 ≤ (runCycles env config histories t0).1 ∧
    ∀ r ∈ (runCycles env config histories t0).2,
      (∀ p ∈ r.fetched, t0 < p.modified) ∧
      (∀ p ∈ r.ourPushes, t0 < p.modified) := by
  induction histories generalizing t0 with
  | nil => exact ⟨Nat.le_refl t0, by simp [runCycles]⟩
  | cons all rest ih =>
    have hc : t0 ≤ (updatePushes env config all t0).time_cursor := by
      rw [updatePushes_time_cursor]
      exact le_advanceCursor _ _
    obtain ⟨ihle, ihmem⟩ := ih ((updatePushes env config all t0).time_cursor)
    rw [runCycles_cons]
    constructor
    · exact le_trans hc ihle
    · intro r hr
      simp only [List.mem_cons] at hr
      rcases hr with rfl | hr
      · constructor
        · intro p hp
          rw [updatePushes_fetched] at hp
          exact ((mem_get_pushes all t0 p).mp hp).2
        · intro p hp
          rw [updatePushes_ourPushes] at hp
          have hin := ((mem_our_pushes _ _ _ p).mp hp).1
          exact ((mem_get_pushes all t0 p).mp hin).2
      · obtain ⟨h1, h2⟩ := ihmem r hr
        exact ⟨fun p hp => lt_of_le_of_lt hc (h1 p hp),
               fun p hp => lt_of_le_of_lt hc (h2 p hp)⟩

/-- Witness for C10: a concrete one-cycle run never lowers the cursor
below startup. -/
theorem startup_cursor_bound_w :
    (0 : Nat) ≤ (runCycles envA configA [[pushA]] 0).1 :=
  (startup_cursor_bound envA configA [[pushA]] 0).1

/-- C9: an iden matching no known device resolves to no name (`None`), and
every reply a loop iteration delivers resolves its device through
`get_device` keyed by `deviceNameFromIden` of the push's source iden — a
nickname lookup, not an iden lookup. -/
theorem deviceName_miss_and_reply_key (devices : List Device) (iden : String)
    (env : Env) (config : Config) (p : Push) (src : String) :
    ((∀ d ∈ devices, d.device_iden ≠ iden) →
      deviceNameFromIden devices iden = none) ∧
    (p.source_device_iden = some src →
      ∀ msg key dev,
        TraceEvent.reply msg key dev ∈ (processPush env config p).1 →
          key = deviceNameFromIden env.devices src ∧
          env.get_device (deviceNameFromIden env.devices src) =
            Except.ok dev) := by
  constructor
  · exact deviceNameFromIden_eq_none devices iden
  · intro hs msg key dev hmem
    rcases processPush_shape env config p with ⟨e, h⟩ | ⟨src2, dev2, hs2, hdev, h⟩
    · rw [h] at hmem
      simp at hmem
    · have hsrc : src2 = src := by
        rw [hs] at hs2
        exact (Option.some.inj hs2).symm
      subst hsrc
      rw [h] at hmem
      simp only [List.mem_cons, List.not_mem_nil, or_false] at hmem
      rcases hmem with h1 | h1
      · exact absurd h1 (by simp)
      · injection h1 with hm hk hd3
        refine ⟨hk, ?_⟩
        rw [← hd3] at hdev
        exact hdev

/-- Witness for C9: the iden `"zzz"` matches no known device and resolves
to `None`. -/
theorem deviceName_miss_and_reply_key_w :
    (∀ d ∈ [devPhone], d.device_iden ≠ "zzz") ∧
    deviceNameFromIden [devPhone] "zzz" = none :=
  ⟨by decide,
   (deviceName_miss_and_reply_key [devPhone] "zzz" envA configA pushA "abc").1
     (by decide)⟩

/-- C2 (amended): a failure while executing a message's command never
blocks the rest of the batch — every exception from `executeCommand` is
swallowed — so whenever reply deliveries succeed and every push carries a
source key, the whole batch completes with no uncaught exception and every
message receives its execution attempt. (A reply-delivery failure, by
contrast, aborts the batch: see the counterexample.) -/
theorem exec_failure_isolated (env : Env) (config : Config)
    (pushes : List Push) (hd : deliveriesOk env)
    (hs : ∀ p ∈ pushes, p.source_device_iden ≠ none) :
    (processPushes env config pushes).2 = none ∧
    ∀ p ∈ pushes,
      TraceEvent.attempt p.body ∈ (processPushes env config pushes).1 := by
  induction pushes with
  | nil => exact ⟨rfl, by simp [processPushes]⟩
  | cons q t ih =>
    have hq := hs q (List.mem_cons_self q t)
    obtain ⟨src, hsrc⟩ : ∃ s, q.source_device_iden = some s := by
      cases h : q.source_device_iden with
      | none => exact absurd h hq
      | some s => exact ⟨s, rfl⟩
    obtain ⟨dev, hdevok, hdev⟩ := processPush_ok env config q src hsrc hd
    obtain ⟨ih1, ih2⟩ := ih (fun p hp => hs p (List.mem_cons_of_mem q hp))
    rw [processPushes_cons_ok env config q t _ hdev]
    refine ⟨ih1, ?_⟩
    intro p hp
    rcases List.mem_cons.mp hp with rfl | hp2
    · simp
    · exact List.mem_append_right _ (ih2 p hp2)

/-- Witness for C2: a one-push batch under an always-delivering
environment completes without an uncaught exception. -/
theorem exec_failure_isolated_w :
    deliveriesOk envA ∧ (processPushes envA configA [pushA]).2 = none :=
  ⟨envA_deliveriesOk,
   (exec_failure_isolated envA configA [pushA] envA_deliveriesOk
     (by decide)).1⟩

/-- C2 counterexample: with reply delivery failing, the first message's
reply failure aborts the batch — the second message gets no execution
attempt and no reply, refuting the claim as stated. -/
theorem reply_failure_blocks_batch :
    processPushes envNoteFail configB [pushB1, pushB2] =
      ([TraceEvent.attempt "status"], some PyError.pushbulletError) ∧
    countAttempts (processPushes envNoteFail configB [pushB1, pushB2]).1 = 1 ∧
    countReplies (processPushes envNoteFail configB [pushB1, pushB2]).1 = 0 :=
  ⟨rfl, rfl, rfl⟩

/-- C7 (amended): provided reply deliveries succeed and every push carries
a source key, a processed batch performs exactly one execution attempt and
exactly one reply per message, each reply keyed by the nickname resolved
from that message's source iden. (If a delivery fails the batch aborts:
see the counterexample.) -/
theorem exactly_one_attempt_and_reply (env : Env) (config : Config)
    (pushes : List Push) (hd : deliveriesOk env)
    (hs : ∀ p ∈ pushes, p.source_device_iden ≠ none) :
    (processPushes env config pushes).2 = none ∧
    countAttempts (processPushes env config pushes).1 = pushes.length ∧
    countReplies (processPushes env config pushes).1 = pushes.length ∧
    (processPushes env config pushes).1.filterMap replyKeyOf =
      pushes.map (fun p => p.source_device_iden.bind
        (fun s => deviceNameFromIden env.devices s)) := by
  induction pushes with
  | nil => exact ⟨rfl, rfl, rfl, rfl⟩
  | cons q t ih =>
    have hq := hs q (List.mem_cons_self q t)
    obtain ⟨src, hsrc⟩ : ∃ s, q.source_device_iden = some s := by
      cases h : q.source_device_iden with
      | none => exact absurd h hq
      | some s => exact ⟨s, rfl⟩
    obtain ⟨dev, hdevok, hdev⟩ := processPush_ok env config q src hsrc hd
    obtain ⟨ih1, ih2, ih3, ih4⟩ :=
      ih (fun p hp => hs p (List.mem_cons_of_mem q hp))
    rw [processPushes_cons_ok env config q t _ hdev]
    refine ⟨ih1, ?_, ?_, ?_⟩
    · have ha : countAttempts [TraceEvent.attempt q.body,
          TraceEvent.reply (exploded_msg q.body)
            (deviceNameFromIden env.devices src) dev] = 1 := rfl
      rw [countAttempts_append, ih2, ha, List.length_cons]
      omega
    · have hr : countReplies [TraceEvent.attempt q.body,
          TraceEvent.reply (exploded_msg q.body)
            (deviceNameFromIden env.devices src) dev] = 1 := rfl
      rw [countReplies_append, ih3, hr, List.length_cons]
      omega
    · rw [List.filterMap_append, ih4]
      simp [List.filterMap_cons, replyKeyOf, hsrc]

/-- Witness for C7: the one-push batch yields exactly one attempt and one
reply. -/
theorem exactly_one_attempt_and_reply_w :
    deliveriesOk envA ∧
    countAttempts (processPushes envA configA [pushA]).1 = [pushA].length ∧
    countReplies (processPushes envA configA [pushA]).1 = [pushA].length :=
  ⟨envA_deliveriesOk,
   (exactly_one_attempt_and_reply envA configA [pushA] envA_deliveriesOk
     (by decide)).2.1,
   (exactly_one_attempt_and_reply envA configA [pushA] envA_deliveriesOk
     (by decide)).2.2.1⟩

/-- C7 counterexample: when device resolution for the reply fails, a batch
of two authorized messages yields only one execution attempt and no reply
at all, refuting "exactly one attempt and exactly one reply per message"
as an unconditional statement. -/
theorem device_resolution_failure_blocks :
    processPushes envGetFail configA [pushG1, pushG2] =
      ([TraceEvent.attempt "reboot"], some PyError.pushbulletError) ∧
    countAttempts (processPushes envGetFail configA [pushG1, pushG2]).1 = 1 ∧
    countReplies (processPushes envGetFail configA [pushG1, pushG2]).1 = 0 ∧
    [pushG1, pushG2].length = 2 :=
  ⟨rfl, rfl, rfl, rfl⟩

/-- C4: a push whose body names no configured command raises `ValueError`
inside `executeCommand` (so no process is spawned and no container action
is invoked), the iteration swallows it and replies with the "exploded"
text, and the remaining messages of the batch are processed exactly as
they would have been. -/
theorem lookup_miss_exploded (env : Env) (config : Config) (p : Push)
    (rest : List Push) (src : String)
    (hmiss : List.lookup p.body config.commands = none)
    (hs : p.source_device_iden = some src)
    (hd : deliveriesOk env) :
    executeCommand env config p.body = Except.error PyError.valueError ∧
    ∃ dev, processPushes env config (p :: rest) =
      (TraceEvent.attempt p.body ::
         TraceEvent.reply (exploded_msg p.body)
           (deviceNameFromIden env.devices src) dev ::
         (processPushes env config rest).1,
       (processPushes env config rest).2) := by
  have hexec : executeCommand env config p.body =
      Except.error PyError.valueError := by
    unfold executeCommand
    rw [hmiss]
  obtain ⟨dev, hdevok, hdev⟩ := processPush_ok env config p src hs hd
  refine ⟨hexec, dev, ?_⟩
  rw [processPushes_cons_ok env config p rest _ hdev]
  simp

/-- Witness for C4: the body `"nonexistent"` misses the Scenario A
registry and `executeCommand` raises `ValueError`. -/
theorem lookup_miss_exploded_w :
    List.lookup pushMiss.body configA.commands = none ∧
    executeCommand envA configA pushMiss.body =
      Except.error PyError.valueError :=
  ⟨rfl,
   (lookup_miss_exploded envA configA pushMiss [] "abc" rfl rfl
     envA_deliveriesOk).1⟩

/-- C1 (evaluating the code at Scenario A): with `{"reboot": "shutdown -r
now"}` configured, `executeCommand` raises `AttributeError` at
`exec_cmd.starts_with(...)` before reaching `subprocess.call`, so no
process is spawned, and the reply text is the "exploded" variant, which
does not contain `"Success"`. -/
theorem scenarioA_reboot_explodes :
    executeCommand envA configA "reboot" =
      Except.error PyError.attributeError ∧
    processPush envA configA pushA =
      ([TraceEvent.attempt "reboot",
        TraceEvent.reply (exploded_msg "reboot") (some "Phone") devPhone],
       none) ∧
    countSpawns (processPush envA configA pushA).1 = 0 ∧
    (exploded_msg "reboot" == success_msg "reboot" "Success") = false :=
  ⟨rfl, rfl, rfl, rfl⟩

/-- C3 (evaluating the code at Scenario C): with the action spec
`"docker-start:web1"` configured, `executeCommand` raises `AttributeError`
at `exec_cmd.starts_with("docker-start:")`, so the container-start
operation is never invoked (and no shell is spawned either); the sender
gets the "exploded" reply instead. -/
theorem scenarioC_docker_explodes :
    executeCommand envA configC "web" =
      Except.error PyError.attributeError ∧
    processPush envA configC pushC =
      ([TraceEvent.attempt "web",
        TraceEvent.reply (exploded_msg "web") (some "Phone") devPhone],
       none) ∧
    countDockerStarts (processPush envA configC pushC).1 = 0 ∧
    countSpawns (processPush envA configC pushC).1 = 0 :=
  ⟨rfl, rfl, rfl, rfl⟩

end ODP
